import Mathlib

/-!
Shallow embedding of the FarmSight backend's stress-classification,
forecasting and alert-orchestration logic.

Sources embedded:
  * `AIStressDetector` (src/unnamed/part_004): `analyzeWithRules`,
    `calculateNDVITrend`, `calculateLinearRegression`,
    `upgradeStressLevel`, `generateStressForecast`.
  * `AlertService` (src/services/videoEducation.js): `analyzeFarmAndAlert`,
    `shouldSendAlert`, `sendAlert`, `storeAlertRecord`.

JavaScript numbers are modelled as rationals; the unseeded
`Math.random()` perturbation in the forecast is modelled as an explicit
noise stream passed as an argument; database lookups and the SMS gateway
outcome are modelled as inputs to the orchestration step.  The
`stressCache` JavaScript `Map` is modelled as an association list whose
keys distinguish strings from individual ObjectId instances, matching
SameValueZero key equality: the `get` key (the `farmId` argument) and
the `set` key (the freshly hydrated `farm._id`) are therefore distinct
keys, as they are in the program.
-/

namespace FarmSight

/-- The five ordered crop-stress severity levels
(the `levels` array of `AIStressDetector`). -/
inductive StressLevel
  | healthy
  | low
  | moderate
  | high
  | severe
deriving DecidableEq, Repr

open StressLevel

/-- Position of a level in the array
`['healthy', 'low', 'moderate', 'high', 'severe']`, i.e.
`levels.indexOf(currentLevel)`. -/
def severityIndex : StressLevel → ℕ
  | healthy => 0
  | low => 1
  | moderate => 2
  | high => 3
  | severe => 4

/-- The ordered `levels` array of `upgradeStressLevel`. -/
def levels : List StressLevel := [healthy, low, moderate, high, severe]

/-- `AIStressDetector.upgradeStressLevel`:
`levels[Math.min(currentIndex + 1, levels.length - 1)]`. -/
def upgradeStressLevel (currentLevel : StressLevel) : StressLevel :=
  levels.getD (min (severityIndex currentLevel + 1) (levels.length - 1)) severe

/-- One NDVI reading (model `NDVIData`): only the fields the embedded
functions read.  `date` is milliseconds since epoch; callers pass samples
sorted by `date` descending (`.sort({ date: -1 })`). -/
structure NDVISample where
  date : ℤ
  ndvi : ℚ
deriving DecidableEq, Repr

/-- Denominator `n * sumX2 - sumX * sumX` of the least-squares slope in
`AIStressDetector.calculateLinearRegression`. -/
def regressionDenominator (points : List (ℚ × ℚ)) : ℚ :=
  let n : ℚ := points.length
  let sumX := (points.map (fun p => p.1)).sum
  let sumX2 := (points.map (fun p => p.1 * p.1)).sum
  n * sumX2 - sumX * sumX

/-- `AIStressDetector.calculateLinearRegression`:
`slope = (n*sumXY - sumX*sumY) / (n*sumX2 - sumX*sumX)`. -/
def calculateLinearRegression (points : List (ℚ × ℚ)) : ℚ :=
  let n : ℚ := points.length
  let sumX := (points.map (fun p => p.1)).sum
  let sumY := (points.map (fun p => p.2)).sum
  let sumXY := (points.map (fun p => p.1 * p.2)).sum
  (n * sumXY - sumX * sumY) / regressionDenominator points

/-- The `(x, y)` pairs handed to the regression:
`recent.map((d, i) => ({x: i, y: d.ndvi}))`. -/
def regressionPoints (recent : List NDVISample) : List (ℚ × ℚ) :=
  recent.enum.map (fun p => ((p.1 : ℚ), p.2.ndvi))

/-- `AIStressDetector.calculateNDVITrend`: slope of the last 5 readings
(`ndviData.slice(-5)`), `0` when fewer than 2 samples exist. -/
def calculateNDVITrend (ndviData : List NDVISample) : ℚ :=
  if ndviData.length < 2 then 0
  else
    let recent := ndviData.drop (ndviData.length - 5)
    if recent.length < 2 then 0
    else calculateLinearRegression (regressionPoints recent)

/-- The value `ndviData[ndviData.length - 1]?.ndvi || 0` that
`analyzeWithRules` (and the forecast) reads: the ndvi of the LAST element
of the array as passed, defaulting to `0` for an empty array. -/
def drivingNDVI (ndviData : List NDVISample) : ℚ :=
  ((ndviData.getLast?).map NDVISample.ndvi).getD 0

/-- The threshold chain of `analyzeWithRules` before the trend
adjustment: level, confidence and recommendations as functions of
`latestNDVI`.  Note the chain has no `low` branch: the initial value
`('healthy', 0.8)` is kept for every ndvi `>= 0.4`. -/
def ruleStress (latestNDVI : ℚ) : StressLevel × ℚ × List String :=
  if latestNDVI < 2/10 then
    (severe, 9/10, ["Immediate irrigation required", "Check for pest infestation"])
  else if latestNDVI < 3/10 then
    (high, 8/10, ["Increase irrigation frequency", "Apply balanced fertilizer"])
  else if latestNDVI < 4/10 then
    (moderate, 7/10, ["Monitor closely", "Consider light irrigation"])
  else
    (healthy, 8/10, [])

/-- Base (pre-escalation) stress level of the rule-based classifier. -/
def baseStressLevel (ndviData : List NDVISample) : StressLevel :=
  (ruleStress (drivingNDVI ndviData)).1

/-- The `ndviAnalysis` sub-record of an analysis result. -/
structure NDVIAnalysis where
  current : ℚ
  average : ℚ
  trend : ℚ
deriving DecidableEq, Repr

/-- Result record of the rule-based classifier (fields read by callers). -/
structure AnalysisResult where
  stressLevel : StressLevel
  confidence : ℚ
  recommendations : List String
  ndviAnalysis : NDVIAnalysis
  aiModel : String
deriving DecidableEq, Repr

/-- `AIStressDetector.analyzeWithRules`: threshold classification of the
ndvi at index `length - 1`, escalated one step when the trend slope is
below `-0.05`. -/
def analyzeWithRules (ndviData : List NDVISample) : AnalysisResult :=
  let latestNDVI := drivingNDVI ndviData
  let avgNDVI := ((ndviData.map NDVISample.ndvi).sum) / (ndviData.length : ℚ)
  let ndviTrend := calculateNDVITrend ndviData
  let base := ruleStress latestNDVI
  let stressLevel := if ndviTrend < -(5/100) then upgradeStressLevel base.1 else base.1
  let recommendations :=
    if ndviTrend < -(5/100) then base.2.2 ++ ["Declining health trend detected"] else base.2.2
  { stressLevel := stressLevel
    confidence := base.2.1
    recommendations := recommendations
    ndviAnalysis := { current := latestNDVI, average := avgNDVI, trend := ndviTrend }
    aiModel := "rule-based-fallback" }

/-- Forecast threshold chain of `generateStressForecast` (this one does
have a `low` band below `0.5`). -/
def forecastStressLevel (finalNDVI : ℚ) : StressLevel :=
  if finalNDVI < 2/10 then severe
  else if finalNDVI < 3/10 then high
  else if finalNDVI < 4/10 then moderate
  else if finalNDVI < 5/10 then low
  else healthy

/-- One forecast point; `dayOffset` stands for the `new Date()` offset
`i` in days. -/
structure ForecastPoint where
  dayOffset : ℕ
  predictedNDVI : ℚ
  stressLevel : StressLevel
  confidence : ℚ
deriving DecidableEq, Repr

/-- Result record of `generateStressForecast` (fields read by callers). -/
structure ForecastResult where
  forecast : List ForecastPoint
  confidence : ℚ
  method : String
deriving DecidableEq, Repr

/-- Body of the forecast loop at day `i` (`1 <= i <= days`): the noise
stream models `(Math.random() - 0.5) * 0.05`. -/
def forecastDay (lastNDVI trend : ℚ) (days : ℕ) (noise : ℕ → ℚ) (i : ℕ) : ForecastPoint :=
  let predictedNDVI := lastNDVI + trend * (i : ℚ)
  let finalNDVI := max 0 (min 1 (predictedNDVI + noise i))
  { dayOffset := i
    predictedNDVI := finalNDVI
    stressLevel := forecastStressLevel finalNDVI
    confidence := max (5/10) (9/10 - ((i : ℚ) / (days : ℚ)) * (4/10)) }

/-- `AIStressDetector.generateStressForecast`: empty forecast tagged
`insufficient_data` below 3 samples, otherwise one point per day
`i = 1..days` projected from the trend slope. -/
def generateStressForecast (ndviData : List NDVISample) (days : ℕ) (noise : ℕ → ℚ) :
    ForecastResult :=
  if ndviData.length < 3 then
    { forecast := [], confidence := 0, method := "insufficient_data" }
  else
    let trend := calculateNDVITrend ndviData
    let lastNDVI := drivingNDVI ndviData
    { forecast := (List.range days).map (fun k => forecastDay lastNDVI trend days noise (k + 1))
      confidence := 1
      method := "linear_regression" }

/-- A JavaScript `Map` key as `stressCache` uses them: either a string
(the `farmId` route parameter) or an ObjectId INSTANCE, identified by a
reference tag.  JS `Map` compares keys with SameValueZero: strings by
value, objects by reference — so two ObjectId instances carrying the
same database id but different tags are DIFFERENT keys, and a string
never equals an ObjectId.  Every Mongoose hydration (`Farm.findById`,
`Farm.find`) creates a fresh ObjectId instance, i.e. a fresh tag. -/
inductive MapKey
  | str : String → MapKey
  | oid : ℕ → MapKey
deriving DecidableEq, Repr

/-- A farm record as far as `analyzeFarmAndAlert` reads it
(`Farm.findById` result); `_id` is the ObjectId instance of this
hydration, used as the `stressCache.set` key in `sendAlert`. -/
structure Farm where
  _id : MapKey
  isActive : Bool
deriving DecidableEq, Repr

/-- A farm owner as far as `analyzeFarmAndAlert` and `sendAlert` read it
(`User.findById` result); `phoneValid` models whether
`smsService.formatPhoneNumber(farmer.phoneNumber)` returns a number. -/
structure Farmer where
  isActive : Bool
  phoneValid : Bool
deriving DecidableEq, Repr

/-- One entry of the in-memory `stressCache` map. -/
structure CacheEntry where
  timestamp : ℤ
  stressLevel : StressLevel
deriving DecidableEq, Repr

/-- `Map.prototype.get` on the `stressCache` map, modelled as an
association list with SameValueZero key equality (`MapKey` equality). -/
def mapGet (m : List (MapKey × CacheEntry)) (k : MapKey) : Option CacheEntry :=
  (m.find? (fun e => e.1 = k)).map (fun e => e.2)

/-- `Map.prototype.set` on the `stressCache` map: replace the entry of
an existing key, otherwise append. -/
def mapSet (m : List (MapKey × CacheEntry)) (k : MapKey) (v : CacheEntry) :
    List (MapKey × CacheEntry) :=
  if m.any (fun e => e.1 = k) then m.map (fun e => if e.1 = k then (k, v) else e)
  else m ++ [(k, v)]

/-- `this.alertCooldown = 24 * 60 * 60 * 1000` (milliseconds). -/
def alertCooldown : ℤ := 24 * 60 * 60 * 1000

/-- `AlertService.shouldSendAlert(farmId, analysis)`: no alert for
healthy or low stress, none while `stressCache.get(farmId)` holds an
alert inside the cooldown window, none below confidence `0.7`.  The
lookup key is the `farmId` ARGUMENT of `analyzeFarmAndAlert` (a route
string, or the outer query's ObjectId in `analyzeAllFarms`), not the
`farm._id` instance that `sendAlert` stores under.  The cached
`stressLevel` is stored but never read. -/
def shouldSendAlert (stressCache : List (MapKey × CacheEntry)) (farmId : MapKey) (now : ℤ)
    (analysis : AnalysisResult) : Bool :=
  if analysis.stressLevel = healthy || analysis.stressLevel = low then false
  else if (match mapGet stressCache farmId with
           | some lastAlert => decide (now - lastAlert.timestamp < alertCooldown)
           | none => false) then false
  else if analysis.confidence < 7/10 then false
  else true

/-- A persisted `Alert` document, restricted to the fields derived from
the analysis (model `Alert`). -/
structure AlertRecord where
  stressLevel : StressLevel
  confidence : ℚ
  alertSent : Bool
deriving DecidableEq, Repr

/-- `AlertService.storeAlertRecord(farmId, analysis, alertResult, farm, farmer)`.
`farm` and `farmer` are `Option` because the JavaScript call site may
leave them `undefined`; in that case `new Alert({... userId: farmer._id ...})`
(or `farm.name` inside `generateAlertMessage`) throws a `TypeError`,
which the function's own `catch` swallows, returning `null` and saving
nothing. -/
def storeAlertRecord (analysis : AnalysisResult) (alertSuccess : Bool)
    (farm : Option Farm) (farmer : Option Farmer) : Option AlertRecord :=
  match farmer, farm with
  | some _, some _ =>
      some { stressLevel := analysis.stressLevel
             confidence := analysis.confidence
             alertSent := alertSuccess }
  | _, _ => none

/-- Return value of `sendAlert` (`{success, messageId}` shape). -/
structure SendResult where
  success : Bool
deriving DecidableEq, Repr

/-- `AlertService.sendAlert(farmer, farm, analysis)`: with an invalid
phone number it returns failure without dispatching anything; otherwise
it dispatches exactly one SMS through `createCustomAlert` (outcome
`smsSuccess`) and, on success, runs `this.stressCache.set(farm._id, ...)`
— keyed by the ObjectId instance of THIS call's hydrated farm document.
The second component counts notifications dispatched. -/
def sendAlert (farmer : Farmer) (farm : Farm) (analysis : AnalysisResult)
    (smsSuccess : Bool) (now : ℤ) (stressCache : List (MapKey × CacheEntry)) :
    SendResult × ℕ × List (MapKey × CacheEntry) :=
  if !farmer.phoneValid then ({ success := false }, 0, stressCache)
  else
    let cacheAfter :=
      if smsSuccess then
        mapSet stressCache farm._id { timestamp := now, stressLevel := analysis.stressLevel }
      else stressCache
    ({ success := smsSuccess }, 1, cacheAfter)

/-- The inputs one call of `analyzeFarmAndAlert` consumes: the `farmId`
argument (the `stressCache.get` key — a route string or the outer
query's ObjectId instance), the database lookup results (`farm` with its
freshly hydrated `_id`, `owner`, date-descending `ndviData`), the
outcome `analysis` of `detectCropStress`, the SMS gateway outcome, the
clock, and the forecast noise stream. -/
structure OrchInput where
  farmId : MapKey
  farm : Option Farm
  owner : Option Farmer
  ndviData : List NDVISample
  analysis : AnalysisResult
  smsSuccess : Bool
  now : ℤ
  noise : ℕ → ℚ

/-- Persistent and in-memory state touched by one farm's analysis:
the `stressCache` map, the stored analyses/forecasts
(`storeAnalysisResults`), the persisted `Alert` documents, and the count
of notifications dispatched. -/
structure OrchState where
  stressCache : List (MapKey × CacheEntry)
  storedAnalyses : List (AnalysisResult × ForecastResult)
  alertRecords : List AlertRecord
  notifications : ℕ

/-- Return value of `analyzeFarmAndAlert` (fields the claims need). -/
structure AnalyzeOutcome where
  success : Bool
  error : Option String
  alertSent : Bool
deriving DecidableEq, Repr

/-- `AlertService.analyzeFarmAndAlert`: fail fast on unresolved/inactive
farm or owner or fewer than 3 NDVI samples; otherwise store the analysis
and forecast, evaluate the alert guard, and on success send the alert and
call `storeAlertRecord` — at this call site the JavaScript passes only
`(farmId, analysis, alertResult)`, so `farm` and `farmer` are `undefined`
(`none`). -/
def analyzeFarmAndAlert (inp : OrchInput) (s : OrchState) : AnalyzeOutcome × OrchState :=
  match inp.farm with
  | none => ({ success := false, error := some "Farm not found or inactive",
               alertSent := false }, s)
  | some farm =>
    if !farm.isActive then
      ({ success := false, error := some "Farm not found or inactive",
         alertSent := false }, s)
    else
      match inp.owner with
      | none => ({ success := false, error := some "Farm owner not found or inactive",
                   alertSent := false }, s)
      | some owner =>
        if !owner.isActive then
          ({ success := false, error := some "Farm owner not found or inactive",
             alertSent := false }, s)
        else if inp.ndviData.length < 3 then
          ({ success := false, error := some "Insufficient NDVI data for analysis",
             alertSent := false }, s)
        else
          let analysis := inp.analysis
          let fore := generateStressForecast inp.ndviData 14 inp.noise
          let s1 : OrchState := { s with storedAnalyses := s.storedAnalyses ++ [(analysis, fore)] }
          if shouldSendAlert s1.stressCache inp.farmId inp.now analysis then
            let sent := sendAlert owner farm analysis inp.smsSuccess inp.now s1.stressCache
            let recordOpt := storeAlertRecord analysis sent.1.success none none
            let s2 : OrchState :=
              { s1 with stressCache := sent.2.2
                        notifications := s1.notifications + sent.2.1
                        alertRecords := s1.alertRecords ++ recordOpt.toList }
            ({ success := true, error := none, alertSent := sent.1.success }, s2)
          else
            ({ success := true, error := none, alertSent := false }, s1)

/-- The farm-resolution failure condition of the first guard:
`!farm || !farm.isActive`. -/
def farmUnresolved : Option Farm → Bool
  | none => true
  | some f => !f.isActive

/-- The owner-resolution failure condition of the second guard:
`!farmOwner || !farmOwner.isActive`. -/
def ownerUnresolved : Option Farmer → Bool
  | none => true
  | some u => !u.isActive

/-- A concrete orchestration input that passes every guard: route-string
farmId, active farm (hydrated ObjectId tag 0), active owner with a valid
phone number, 3 NDVI samples at ndvi `0.1` (analysis `severe` with
confidence `0.9`), successful SMS dispatch. -/
def C1input : OrchInput :=
  { farmId := MapKey.str "FARM1",
    farm := some ⟨MapKey.oid 0, true⟩, owner := some ⟨true, true⟩,
    ndviData := [⟨2, 1/10⟩, ⟨1, 1/10⟩, ⟨0, 1/10⟩],
    analysis := { stressLevel := severe, confidence := 9/10, recommendations := [],
                  ndviAnalysis := ⟨1/10, 1/10, 0⟩, aiModel := "rule-based-fallback" },
    smsSuccess := true, now := 0, noise := fun _ => 0 }

/-- The fresh per-process state: empty `stressCache`, nothing persisted. -/
def C1state : OrchState :=
  { stressCache := [], storedAnalyses := [], alertRecords := [], notifications := 0 }

/-- First of two calls for the same stressed farm: the route passes the
string `"FARM1"`, `Farm.findById` hydrates a document whose `_id` is a
fresh ObjectId instance (tag 0), analysis `severe` with confidence
`0.9`, SMS succeeds, clock at `0`. -/
def C4input1 : OrchInput :=
  { farmId := MapKey.str "FARM1",
    farm := some ⟨MapKey.oid 0, true⟩, owner := some ⟨true, true⟩,
    ndviData := [⟨2, 1/10⟩, ⟨1, 1/10⟩, ⟨0, 1/10⟩],
    analysis := { stressLevel := severe, confidence := 9/10, recommendations := [],
                  ndviAnalysis := ⟨1/10, 1/10, 0⟩, aiModel := "rule-based-fallback" },
    smsSuccess := true, now := 0, noise := fun _ => 0 }

/-- The same route call repeated 1 second later with unchanged `severe`
stress: the get key is the same string `"FARM1"`, but `Farm.findById`
hydrates a NEW document whose `_id` is a new ObjectId instance (tag 1) —
reference-distinct from the tag-0 instance the first call cached
under. -/
def C4input2 : OrchInput :=
  { farmId := MapKey.str "FARM1",
    farm := some ⟨MapKey.oid 1, true⟩, owner := some ⟨true, true⟩,
    ndviData := [⟨2, 1/10⟩, ⟨1, 1/10⟩, ⟨0, 1/10⟩],
    analysis := { stressLevel := severe, confidence := 9/10, recommendations := [],
                  ndviAnalysis := ⟨1/10, 1/10, 0⟩, aiModel := "rule-based-fallback" },
    smsSuccess := true, now := 1000, noise := fun _ => 0 }

/-- The fresh per-process state for the C4 trace. -/
def C4state : OrchState :=
  { stressCache := [], storedAnalyses := [], alertRecords := [], notifications := 0 }

/-! Helper lemmas shared between claims. -/

/-- The stress level returned by `analyzeWithRules` is the threshold base
level, escalated one step when the trend slope is below `-0.05`. -/
theorem analyzeWithRules_stressLevel_eq (ndviData : List NDVISample) :
    (analyzeWithRules ndviData).stressLevel =
      (if calculateNDVITrend ndviData < -(5/100) then
        upgradeStressLevel (baseStressLevel ndviData)
      else baseStressLevel ndviData) := rfl

/-- The `levels` array lookup of `upgradeStressLevel` advances the
severity index by exactly one, capped at 4 (`severe`). -/
theorem upgradeStressLevel_severityIndex (l : StressLevel) :
    severityIndex (upgradeStressLevel l) = min (severityIndex l + 1) 4 := by
  cases l <;> rfl

/-- The base level of the rule chain as a plain threshold table. -/
theorem ruleStress_fst (v : ℚ) :
    (ruleStress v).1 =
      (if v < 2/10 then severe else if v < 3/10 then high
       else if v < 4/10 then moderate else healthy) := by
  unfold ruleStress
  split_ifs <;> rfl

/-- Claim C2, counterexample: for the single-sample input with ndvi
`0.45` the trend is `0` (no escalation) and the driving ndvi lies in
`[0.4, 0.5)`, yet `analyzeWithRules` classifies it as `healthy`, not
`low` as the claim states: the rule chain has no `low` band. -/
theorem C2_counterexample :
    -(5/100) ≤ calculateNDVITrend [⟨0, 45/100⟩] ∧
    (4/10 : ℚ) ≤ drivingNDVI [⟨0, 45/100⟩] ∧ drivingNDVI [⟨0, 45/100⟩] < 5/10 ∧
    (analyzeWithRules [⟨0, 45/100⟩]).stressLevel = healthy ∧
    (analyzeWithRules [⟨0, 45/100⟩]).stressLevel ≠ low := by
  refine ⟨by norm_num [calculateNDVITrend], by norm_num [drivingNDVI],
    by norm_num [drivingNDVI], ?_, ?_⟩ <;>
    (norm_num [analyzeWithRules, ruleStress, calculateNDVITrend, drivingNDVI] <;> decide)

/-- Claim C2, amended: on any non-empty input whose trend slope is at
least `-0.05`, the classifier returns the base threshold level: `severe`
below `0.2`, `high` below `0.3`, `moderate` below `0.4`, and `healthy`
for every driving ndvi of at least `0.4` — the base never takes the
level `low`. -/
theorem C2_base_thresholds (ndviData : List NDVISample) (h : ndviData ≠ [])
    (hslope : -(5/100) ≤ calculateNDVITrend ndviData) :
    (analyzeWithRules ndviData).stressLevel =
      (if drivingNDVI ndviData < 2/10 then severe
       else if drivingNDVI ndviData < 3/10 then high
       else if drivingNDVI ndviData < 4/10 then moderate
       else healthy) := by
  rw [analyzeWithRules_stressLevel_eq, if_neg (not_lt.mpr hslope), baseStressLevel,
    ruleStress_fst]

/-- Witness for `C2_base_thresholds` at the one-sample input `0.45`. -/
theorem C2_witness :
    (analyzeWithRules [⟨0, 45/100⟩]).stressLevel =
      (if drivingNDVI [⟨0, 45/100⟩] < 2/10 then severe
       else if drivingNDVI [⟨0, 45/100⟩] < 3/10 then high
       else if drivingNDVI [⟨0, 45/100⟩] < 4/10 then moderate
       else healthy) :=
  C2_base_thresholds [⟨0, 45/100⟩] (by simp) (by norm_num [calculateNDVITrend])

/-- Claim C3: on the date-descending input `[(date 1, ndvi 0.5),
(date 0, ndvi 0.1)]` the base classification is `severe`, i.e. driven by
the LAST array element (the oldest sample, ndvi `0.1`), not by the most
recent sample (ndvi `0.5`, which alone would give `healthy`); changing
only the older sample changes the base level, while changing the most
recent sample leaves it untouched. -/
theorem C3_base_from_oldest :
    baseStressLevel [⟨1, 5/10⟩, ⟨0, 1/10⟩] = severe ∧
    (ruleStress (5/10)).1 = healthy ∧
    baseStressLevel [⟨1, 5/10⟩, ⟨0, 45/100⟩] = healthy ∧
    baseStressLevel [⟨1, 9/10⟩, ⟨0, 1/10⟩] = severe := by
  refine ⟨?_, ?_, ?_, ?_⟩ <;> norm_num [baseStressLevel, ruleStress, drivingNDVI]

/-- Claim C5, counterexample: on the input `[0.54, 0.46, 0.38]` the
trend slope is exactly `-0.08` and the driving ndvi is `0.38`, but the
base level is not `high` (it is `moderate`, since `0.38 >= 0.3`) and the
escalated result is not `severe`. -/
theorem C5_counterexample :
    calculateNDVITrend [⟨2, 54/100⟩, ⟨1, 46/100⟩, ⟨0, 38/100⟩] = -(8/100) ∧
    drivingNDVI [⟨2, 54/100⟩, ⟨1, 46/100⟩, ⟨0, 38/100⟩] = 38/100 ∧
    (ruleStress (38/100)).1 ≠ high ∧
    (analyzeWithRules [⟨2, 54/100⟩, ⟨1, 46/100⟩, ⟨0, 38/100⟩]).stressLevel ≠ severe := by
  refine ⟨?_, by norm_num [drivingNDVI], ?_, ?_⟩ <;>
    (norm_num [analyzeWithRules, ruleStress, calculateNDVITrend, calculateLinearRegression,
      regressionPoints, regressionDenominator, List.enum, List.enumFrom, drivingNDVI,
      upgradeStressLevel, levels, severityIndex] <;> decide)

/-- Claim C5, amended: with driving ndvi `0.38` and trend slope `-0.08`
the base level is `moderate` and the one-step escalation raises it to
`high`. -/
theorem C5_escalates_to_high :
    calculateNDVITrend [⟨2, 54/100⟩, ⟨1, 46/100⟩, ⟨0, 38/100⟩] = -(8/100) ∧
    (ruleStress (38/100)).1 = moderate ∧
    upgradeStressLevel moderate = high ∧
    (analyzeWithRules [⟨2, 54/100⟩, ⟨1, 46/100⟩, ⟨0, 38/100⟩]).stressLevel = high := by
  refine ⟨?_, ?_, rfl, ?_⟩ <;>
    norm_num [analyzeWithRules, ruleStress, calculateNDVITrend, calculateLinearRegression,
      regressionPoints, regressionDenominator, List.enum, List.enumFrom, drivingNDVI,
      upgradeStressLevel, levels, severityIndex]

/-- Claim C6: on every non-empty input, a trend slope below `-0.05`
escalates the base level by exactly one severity step (index `min (i+1) 4`,
capped at `severe`), and a slope of at least `-0.05` leaves the base
level unchanged. -/
theorem C6_one_step_escalation (ndviData : List NDVISample) (h : ndviData ≠ []) :
    (calculateNDVITrend ndviData < -(5/100) →
       (analyzeWithRules ndviData).stressLevel = upgradeStressLevel (baseStressLevel ndviData) ∧
       severityIndex ((analyzeWithRules ndviData).stressLevel) =
         min (severityIndex (baseStressLevel ndviData) + 1) 4) ∧
    (-(5/100) ≤ calculateNDVITrend ndviData →
       (analyzeWithRules ndviData).stressLevel = baseStressLevel ndviData) := by
  constructor
  · intro hlt
    rw [analyzeWithRules_stressLevel_eq, if_pos hlt]
    exact ⟨rfl, upgradeStressLevel_severityIndex _⟩
  · intro hge
    rw [analyzeWithRules_stressLevel_eq, if_neg (not_lt.mpr hge)]

/-- Witness for `C6_one_step_escalation` at a one-sample input (trend
`0`, no escalation). -/
theorem C6_witness :
    (analyzeWithRules [⟨0, 1/10⟩]).stressLevel = baseStressLevel [⟨0, 1/10⟩] :=
  (C6_one_step_escalation [⟨0, 1/10⟩] (by simp)).2 (by norm_num [calculateNDVITrend])

/-- Claim C7: with fewer than 3 samples, `generateStressForecast` returns
the empty forecast with method tag `insufficient_data`, for every horizon
and every noise stream. -/
theorem C7_insufficient_data (ndviData : List NDVISample) (days : ℕ) (noise : ℕ → ℚ)
    (h : ndviData.length < 3) :
    generateStressForecast ndviData days noise =
      { forecast := [], confidence := 0, method := "insufficient_data" } := by
  unfold generateStressForecast
  rw [if_pos h]

/-- Witness for `C7_insufficient_data` on the empty input with horizon 5. -/
theorem C7_witness :
    generateStressForecast [] 5 (fun _ => 0) =
      { forecast := [], confidence := 0, method := "insufficient_data" } :=
  C7_insufficient_data [] 5 (fun _ => 0) (by simp)

/-- The x-values handed to the regression are the element indices. -/
theorem regressionPoints_map_fst (l : List NDVISample) :
    (regressionPoints l).map (fun p => p.1)
      = (List.range l.length).map (fun i : ℕ => (i : ℚ)) := by
  apply List.ext_getElem
  · simp [regressionPoints]
  · intro i h1 h2
    simp [regressionPoints, List.getElem_enum]

/-- The squared x-values handed to the regression are the squared
element indices. -/
theorem regressionPoints_map_fst_sq (l : List NDVISample) :
    (regressionPoints l).map (fun p => p.1 * p.1)
      = (List.range l.length).map (fun i : ℕ => ((i : ℚ) * (i : ℚ))) := by
  apply List.ext_getElem
  · simp [regressionPoints]
  · intro i h1 h2
    simp [regressionPoints, List.getElem_enum]

/-- For index x-values `0..m-1` with `2 <= m <= 5` (the only lengths
`calculateNDVITrend` produces), the regression denominator is positive. -/
theorem denom_pos_of_range (m : ℕ) (h2 : 2 ≤ m) (h5 : m ≤ 5) :
    0 < (m : ℚ) * (((List.range m).map (fun i : ℕ => ((i : ℚ) * (i : ℚ)))).sum)
        - (((List.range m).map (fun i : ℕ => (i : ℚ))).sum)
          * (((List.range m).map (fun i : ℕ => (i : ℚ))).sum) := by
  interval_cases m <;> norm_num [List.range_succ]

/-- The denominator of the slope over the enumerated points of a list of
2 to 5 samples is positive. -/
theorem regressionDenominator_pos (l : List NDVISample) (h2 : 2 ≤ l.length)
    (h5 : l.length ≤ 5) :
    0 < regressionDenominator (regressionPoints l) := by
  have hn : (regressionPoints l).length = l.length := by simp [regressionPoints]
  simp only [regressionDenominator, regressionPoints_map_fst, regressionPoints_map_fst_sq, hn]
  exact denom_pos_of_range l.length h2 h5

/-- Claim C10: with at least 2 samples, the x-values of the points passed
by `calculateNDVITrend` to `calculateLinearRegression` are the distinct
indices `0..n-1` of the last `min(5, n)` samples, and the slope
denominator `n*sumX2 - sumX*sumX` is strictly positive, so the division
is well-defined. -/
theorem C10_regression_welldefined (ndviData : List NDVISample) (h : 2 ≤ ndviData.length) :
    ((regressionPoints (ndviData.drop (ndviData.length - 5))).map (fun p => p.1)
       = (List.range (min 5 ndviData.length)).map (fun i : ℕ => (i : ℚ))) ∧
    0 < regressionDenominator (regressionPoints (ndviData.drop (ndviData.length - 5))) := by
  have hlen : (ndviData.drop (ndviData.length - 5)).length = min 5 ndviData.length := by
    rw [List.length_drop]; omega
  constructor
  · rw [regressionPoints_map_fst, hlen]
  · exact regressionDenominator_pos _ (by omega) (by omega)

/-- Witness for `C10_regression_welldefined` on a 2-sample input. -/
theorem C10_witness :
    ((regressionPoints (([⟨1, 1/2⟩, ⟨0, 3/10⟩] : List NDVISample).drop
        (([⟨1, 1/2⟩, ⟨0, 3/10⟩] : List NDVISample).length - 5))).map (fun p => p.1)
       = (List.range (min 5 ([⟨1, 1/2⟩, ⟨0, 3/10⟩] : List NDVISample).length)).map
           (fun i : ℕ => (i : ℚ))) ∧
    0 < regressionDenominator (regressionPoints (([⟨1, 1/2⟩, ⟨0, 3/10⟩] : List NDVISample).drop
        (([⟨1, 1/2⟩, ⟨0, 3/10⟩] : List NDVISample).length - 5))) :=
  C10_regression_welldefined [⟨1, 1/2⟩, ⟨0, 3/10⟩] (by decide)

/-- The day-confidence formula `max(0.5, 0.9 - (i/days)*0.4)` is
strictly decreasing on days `1..days` (the linear part stays at or above
the `0.5` floor there). -/
theorem conf_strict_anti (days i j : ℕ) (hd : 1 ≤ days) (hi : i < days) (hj : j < days)
    (hij : i < j) :
    max ((5:ℚ)/10) (9/10 - (((j + 1 : ℕ) : ℚ) / (days : ℚ)) * (4/10)) <
    max ((5:ℚ)/10) (9/10 - (((i + 1 : ℕ) : ℚ) / (days : ℚ)) * (4/10)) := by
  have hD : (0:ℚ) < (days : ℚ) := by exact_mod_cast hd
  have hxi : ((i + 1 : ℕ) : ℚ) ≤ (days : ℚ) := by exact_mod_cast hi
  have hxj : ((j + 1 : ℕ) : ℚ) ≤ (days : ℚ) := by exact_mod_cast hj
  have hdivi : ((i + 1 : ℕ) : ℚ) / (days : ℚ) ≤ 1 := by rw [div_le_one hD]; exact hxi
  have hdivj : ((j + 1 : ℕ) : ℚ) / (days : ℚ) ≤ 1 := by rw [div_le_one hD]; exact hxj
  have hmi : max ((5:ℚ)/10) (9/10 - (((i + 1 : ℕ) : ℚ) / (days : ℚ)) * (4/10))
      = 9/10 - (((i + 1 : ℕ) : ℚ) / (days : ℚ)) * (4/10) := max_eq_right (by linarith)
  have hmj : max ((5:ℚ)/10) (9/10 - (((j + 1 : ℕ) : ℚ) / (days : ℚ)) * (4/10))
      = 9/10 - (((j + 1 : ℕ) : ℚ) / (days : ℚ)) * (4/10) := max_eq_right (by linarith)
  rw [hmi, hmj]
  have hlt : ((i + 1 : ℕ) : ℚ) / (days : ℚ) < ((j + 1 : ℕ) : ℚ) / (days : ℚ) := by
    gcongr
  linarith

/-- Claim C8: with at least 3 samples and a horizon of at least 1 day,
the forecast has exactly `days` points, the point for day `i = k+1`
carries confidence `max(0.5, 0.9 - (i/days)*0.4)`, and the confidence
sequence is strictly decreasing in the day index, for every noise
stream. -/
theorem C8_forecast_confidence (ndviData : List NDVISample) (days : ℕ) (noise : ℕ → ℚ)
    (h3 : 3 ≤ ndviData.length) (hd : 1 ≤ days) :
    (generateStressForecast ndviData days noise).forecast.length = days ∧
    (∀ k (hk : k < (generateStressForecast ndviData days noise).forecast.length),
      ((generateStressForecast ndviData days noise).forecast.get ⟨k, hk⟩).confidence
        = max (5/10) (9/10 - (((k + 1 : ℕ) : ℚ) / (days : ℚ)) * (4/10))) ∧
    (∀ i j (hi : i < (generateStressForecast ndviData days noise).forecast.length)
        (hj : j < (generateStressForecast ndviData days noise).forecast.length),
      i < j →
      ((generateStressForecast ndviData days noise).forecast.get ⟨j, hj⟩).confidence
        < ((generateStressForecast ndviData days noise).forecast.get ⟨i, hi⟩).confidence) := by
  have hne : ¬ ndviData.length < 3 := by omega
  have hfc : (generateStressForecast ndviData days noise).forecast
      = (List.range days).map
          (fun k => forecastDay (drivingNDVI ndviData) (calculateNDVITrend ndviData) days noise
            (k + 1)) := by
    unfold generateStressForecast
    rw [if_neg hne]
  have hlen : (generateStressForecast ndviData days noise).forecast.length = days := by
    rw [hfc, List.length_map, List.length_range]
  have hconf : ∀ k (hk : k < (generateStressForecast ndviData days noise).forecast.length),
      ((generateStressForecast ndviData days noise).forecast.get ⟨k, hk⟩).confidence
        = max (5/10) (9/10 - (((k + 1 : ℕ) : ℚ) / (days : ℚ)) * (4/10)) := by
    intro k hk
    have hk' : k < days := by rwa [hlen] at hk
    rw [List.get_eq_getElem]
    simp only [hfc, List.getElem_map, List.getElem_range]
    rfl
  refine ⟨hlen, hconf, ?_⟩
  intro i j hi hj hij
  rw [hconf i hi, hconf j hj]
  exact conf_strict_anti days i j hd (by rwa [hlen] at hi) (by rwa [hlen] at hj) hij

/-- Witness for `C8_forecast_confidence` on a 3-sample input with
horizon 2 and zero noise. -/
theorem C8_witness :
    (generateStressForecast [⟨2, 8/10⟩, ⟨1, 7/10⟩, ⟨0, 6/10⟩] 2 (fun _ => 0)).forecast.length
      = 2 :=
  (C8_forecast_confidence [⟨2, 8/10⟩, ⟨1, 7/10⟩, ⟨0, 6/10⟩] 2 (fun _ => 0)
    (by decide) (by decide)).1

/-- Claim C9: when the farm cannot be resolved (missing or inactive),
when the owner cannot be resolved, or when fewer than 3 NDVI samples
exist, `analyzeFarmAndAlert` fails fast with an error naming that
specific reason and returns the state unchanged — no Alert Record, no
analysis state, no notification. -/
theorem C9_fail_fast (inp : OrchInput) (s : OrchState) :
    (farmUnresolved inp.farm = true →
       analyzeFarmAndAlert inp s =
         ({ success := false, error := some "Farm not found or inactive",
            alertSent := false }, s)) ∧
    (farmUnresolved inp.farm = false → ownerUnresolved inp.owner = true →
       analyzeFarmAndAlert inp s =
         ({ success := false, error := some "Farm owner not found or inactive",
            alertSent := false }, s)) ∧
    (farmUnresolved inp.farm = false → ownerUnresolved inp.owner = false →
       inp.ndviData.length < 3 →
       analyzeFarmAndAlert inp s =
         ({ success := false, error := some "Insufficient NDVI data for analysis",
            alertSent := false }, s)) := by
  refine ⟨?_, ?_, ?_⟩
  · intro hf
    unfold analyzeFarmAndAlert
    cases hfa : inp.farm with
    | none => rfl
    | some farm =>
      rw [hfa] at hf
      simp only [farmUnresolved, Bool.not_eq_true'] at hf
      simp [hf]
  · intro hf ho
    unfold analyzeFarmAndAlert
    cases hfa : inp.farm with
    | none => rw [hfa] at hf; simp [farmUnresolved] at hf
    | some farm =>
      rw [hfa] at hf
      simp only [farmUnresolved, Bool.not_eq_false'] at hf
      cases hoa : inp.owner with
      | none => simp [hf]
      | some owner =>
        rw [hoa] at ho
        simp only [ownerUnresolved, Bool.not_eq_true'] at ho
        simp [hf, ho]
  · intro hf ho hlen
    unfold analyzeFarmAndAlert
    cases hfa : inp.farm with
    | none => rw [hfa] at hf; simp [farmUnresolved] at hf
    | some farm =>
      rw [hfa] at hf
      simp only [farmUnresolved, Bool.not_eq_false'] at hf
      cases hoa : inp.owner with
      | none => rw [hoa] at ho; simp [ownerUnresolved] at ho
      | some owner =>
        rw [hoa] at ho
        simp only [ownerUnresolved, Bool.not_eq_false'] at ho
        simp [hf, ho, hlen]

/-- Witness for `C9_fail_fast`: an unresolved farm fails with the
farm-specific message and leaves the state untouched. -/
theorem C9_witness :
    analyzeFarmAndAlert
        { farmId := MapKey.str "FARM1", farm := none, owner := none, ndviData := [],
          analysis := { stressLevel := severe, confidence := 9/10, recommendations := [],
                        ndviAnalysis := ⟨0, 0, 0⟩, aiModel := "rule-based-fallback" },
          smsSuccess := true, now := 0, noise := fun _ => 0 }
        { stressCache := [], storedAnalyses := [], alertRecords := [], notifications := 0 } =
      ({ success := false, error := some "Farm not found or inactive", alertSent := false },
       { stressCache := [], storedAnalyses := [], alertRecords := [], notifications := 0 }) :=
  (C9_fail_fast _ _).1 rfl

/-- Claim C4: the cooldown never suppresses anything.  `shouldSendAlert`
reads `stressCache.get(farmId)` with the caller's key (here the route
string `"FARM1"`), while `sendAlert` writes `stressCache.set(farm._id, ...)`
keyed by the ObjectId instance freshly hydrated in that call; under JS
`Map` reference equality for objects the get can never return the set
entry.  Trace: the first call for the farm sends an alert and caches it
under the tag-0 ObjectId; 1 second later (well inside the 24-hour
window) the same route call with UNCHANGED `severe` stress looks up the
string key, misses, and sends a second alert — where the claim says the
repeat is suppressed unless severity increased. -/
theorem C4_cooldown_dead :
    (analyzeFarmAndAlert C4input1 C4state).2.notifications = 1 ∧
    (analyzeFarmAndAlert C4input1 C4state).2.stressCache
      = [(MapKey.oid 0, { timestamp := 0, stressLevel := severe })] ∧
    mapGet (analyzeFarmAndAlert C4input1 C4state).2.stressCache (MapKey.str "FARM1") = none ∧
    (1000 : ℤ) - 0 < alertCooldown ∧
    C4input2.analysis.stressLevel = C4input1.analysis.stressLevel ∧
    (analyzeFarmAndAlert C4input2 ((analyzeFarmAndAlert C4input1 C4state).2)).1.alertSent
      = true ∧
    (analyzeFarmAndAlert C4input2 ((analyzeFarmAndAlert C4input1 C4state).2)).2.notifications
      = 2 := by
  have hc : (analyzeFarmAndAlert C4input1 C4state).2.stressCache
      = [(MapKey.oid 0, { timestamp := 0, stressLevel := severe })] := by
    norm_num [C4input1, C4state, analyzeFarmAndAlert, shouldSendAlert, sendAlert,
      storeAlertRecord, mapGet, mapSet, alertCooldown] <;> decide
  refine ⟨?_, hc, by rw [hc]; decide, by decide, rfl, ?_, ?_⟩ <;>
    (norm_num [C4input1, C4input2, C4state, analyzeFarmAndAlert, shouldSendAlert, sendAlert,
      storeAlertRecord, mapGet, mapSet, alertCooldown] <;> decide)

/-- Claim C1: on an input passing the alert guard, `analyzeFarmAndAlert`
dispatches exactly one notification but persists NO Alert Record: the
call site passes only `(farmId, analysis, alertResult)` to
`storeAlertRecord`, whose `farm` and `farmer` parameters are therefore
`undefined`; dereferencing `farmer._id` throws, the internal catch
returns `null`, and nothing is saved. -/
theorem C1_alert_record_lost :
    shouldSendAlert C1state.stressCache C1input.farmId C1input.now C1input.analysis = true ∧
    (analyzeFarmAndAlert C1input C1state).1.success = true ∧
    (analyzeFarmAndAlert C1input C1state).1.alertSent = true ∧
    (analyzeFarmAndAlert C1input C1state).2.notifications = C1state.notifications + 1 ∧
    (analyzeFarmAndAlert C1input C1state).2.alertRecords = [] ∧
    storeAlertRecord C1input.analysis true none none = none := by
  refine ⟨?_, ?_, ?_, ?_, ?_, rfl⟩ <;>
    (norm_num [C1input, C1state, analyzeFarmAndAlert, shouldSendAlert, sendAlert,
      storeAlertRecord, mapGet, mapSet, alertCooldown] <;> decide)

end FarmSight
